import Mathlib

/-!
Verification development for the voice-recording subsystem of the
mood-journal application, embedded from src/components/VoiceRecorder.tsx.

The component keeps its session state in a handful of React state
variables (isRecording, isPaused, duration, recordedUri, showWarning,
audioLevel, isPlaying) plus interval/timeout handles.  We embed that state
as the record RecState below.  Every user-visible operation of the source
(startRecording, pauseRecording, resumeRecording, stopRecording,
playRecording, pausePlayback, cleanupRecording, handleClose, handleSave,
the record-again button handler, the one-second duration-timer callback and
the 50ms metering callback) is translated into a Lean function returning
the new state together with the list of externally visible actions it
performs (device calls, alerts, callbacks).  Device reads and the
success/failure of awaited device calls are inputs to these functions.

The duration interval and metering interval are managed by React effects
keyed on (isRecording, isPaused); accordingly their "running" status is the
derived predicate timersActive below, and a wall-clock second is the event
that runs the pending 3-second warning timeout machinery followed by the
duration-timer callback when the timer is active.
-/

/-- Maximum recording length in seconds (source constant MAX_DURATION). -/
def MAX_DURATION : Nat := 300

/-- Warning threshold in seconds (source constant WARNING_DURATION). -/
def WARNING_DURATION : Nat := 270

/-- Abstract session state used by the specification (Idle, Recording,
Paused, Stopped).  The source has no explicit enum; see sessionState. -/
inductive SessionState where
  | idle
  | recording
  | paused
  | stopped
  deriving Repr, DecidableEq

/-- The React state of the VoiceRecorder component.  warningTimer models a
pending setTimeout that clears the warning: it holds the number of whole
seconds left until the timeout fires (set to 3 when the warning is shown). -/
structure RecState where
  isRecording : Bool
  isPaused : Bool
  duration : Nat
  recordedUri : Option String
  showWarning : Bool
  warningTimer : Option Nat
  audioLevel : ℚ
  isPlaying : Bool
  deriving Repr, DecidableEq

/-- Initial component state (the useState initial values). -/
def initState : RecState :=
  { isRecording := false, isPaused := false, duration := 0,
    recordedUri := none, showWarning := false, warningTimer := none,
    audioLevel := 0, isPlaying := false }

/-- A status read from the capture device (audioRecorder.getStatus plus the
uri the recorder would report on stop). -/
structure DevStatus where
  isRecording : Bool
  metering : Option ℚ
  uri : Option String
  deriving Repr, DecidableEq

/-- Externally visible actions: device calls, waits, and outbound
callbacks.  setAudioMode carries the allowsRecording flag. -/
inductive Act where
  | requestPerm
  | setAudioMode (allowsRecording : Bool)
  | recorderStop
  | recorderPause
  | prepare
  | record
  | wait (ms : Nat)
  | playerSeekTo (pos : Nat)
  | playerPlay
  | playerPause
  | alert (title : String)
  | onSave (uri : String) (durationSeconds : Nat)
  | onClose
  deriving Repr, DecidableEq

/-- Both interval timers (duration timer and metering monitor) are created
by effects exactly while isRecording and not isPaused, so this derived
predicate is their running status. -/
def timersActive (s : RecState) : Bool := s.isRecording && !s.isPaused

/-- The metering interval is governed by the same effect condition. -/
def meteringActive (s : RecState) : Bool := s.isRecording && !s.isPaused

/-- Normalization of a metering reading, from the metering interval
callback: a defined decibel value maps to max 0 (min 1 ((db+160)/160)),
a missing reading is treated as level 0. -/
def normalizeMetering : Option ℚ → ℚ
  | none => 0
  | some db => max 0 (min 1 ((db + 160) / 160))

/-- The 50ms metering interval callback body (state part). -/
def meteringTick (m : Option ℚ) (s : RecState) : RecState :=
  { s with audioLevel := normalizeMetering m }

/-- stopRecording: awaits the device stop call, reads the uri, clears the
recording flags; a non-null uri is stored, a null uri is only logged.
If the stop call throws (ok = false) the catch only logs. -/
def stopRecording (ok : Bool) (uri : Option String) (s : RecState) :
    RecState × List Act :=
  if ok then
    ({ s with isRecording := false, isPaused := false,
              recordedUri := if uri.isSome then uri else s.recordedUri },
     [Act.recorderStop])
  else (s, [Act.recorderStop])

/-- The one-second duration-timer interval callback.  It first re-verifies
the device status: if the device is not recording it clears the timer and
the recording flag and returns.  Otherwise the setDuration updater runs:
at newDuration = WARNING_DURATION it shows the warning and schedules its
3-second auto-clear; at newDuration >= MAX_DURATION it invokes
stopRecording and returns the previous duration. -/
def timerTick (dev : DevStatus) (stopOk : Bool) (s : RecState) :
    RecState × List Act :=
  if !dev.isRecording then
    ({ s with isRecording := false }, [])
  else
    let newDuration := s.duration + 1
    let s1 := if newDuration = WARNING_DURATION then
                { s with showWarning := true, warningTimer := some 3 }
              else s
    if MAX_DURATION ≤ newDuration then
      let p := stopRecording stopOk dev.uri s1
      ({ p.1 with duration := s.duration }, p.2)
    else
      ({ s1 with duration := newDuration }, [])

/-- One wall-clock second of the pending warning-clear timeout: counts the
pending timeout down and, when it fires, sets showWarning to false. -/
def warningTimeoutStep (s : RecState) : RecState :=
  match s.warningTimer with
  | none => s
  | some k =>
      if k ≤ 1 then { s with showWarning := false, warningTimer := none }
      else { s with warningTimer := some (k - 1) }

/-- One wall-clock second: the warning timeout machinery always advances;
the duration-timer callback runs only while the interval exists. -/
def secondStep (dev : DevStatus) (stopOk : Bool) (s : RecState) :
    RecState × List Act :=
  let s0 := warningTimeoutStep s
  if timersActive s0 then timerTick dev stopOk s0 else (s0, [])

/-- Environment of one startRecording call: the permission result and the
success of each awaited device call, plus the two status reads. -/
structure StartEnv where
  permGranted : Bool
  modeOk : Bool
  busyBefore : Bool
  stopOk : Bool
  prepareOk : Bool
  recordOk : Bool
  recordingAfter : Bool
  deriving Repr, DecidableEq

/-- The state reset performed by the catch block of startRecording. -/
def startFailState (s : RecState) : RecState :=
  { s with isRecording := false, isPaused := false, duration := 0 }

/-- startRecording: request permission (denied returns early with an alert
and no state change); set the audio mode; if the device reports an active
capture, stop it and wait 200ms; prepare; record; wait 200ms; re-read the
status and treat a not-recording result as a thrown error.  Every throw
lands in the catch block, which resets the session and shows an alert. -/
def startRecording (env : StartEnv) (s : RecState) : RecState × List Act :=
  if !env.permGranted then
    (s, [Act.requestPerm, Act.alert "Microphone Permission Required"])
  else if !env.modeOk then
    (startFailState s,
     [Act.requestPerm, Act.setAudioMode true, Act.alert "Recording Error"])
  else if env.busyBefore && !env.stopOk then
    (startFailState s,
     [Act.requestPerm, Act.setAudioMode true, Act.recorderStop,
      Act.alert "Recording Error"])
  else
    let t0 := [Act.requestPerm, Act.setAudioMode true] ++
      (if env.busyBefore then [Act.recorderStop, Act.wait 200] else []) ++
      [Act.prepare]
    if !env.prepareOk then
      (startFailState s, t0 ++ [Act.alert "Recording Error"])
    else if !env.recordOk then
      (startFailState s, t0 ++ [Act.record, Act.alert "Recording Error"])
    else if env.recordingAfter then
      ({ s with isRecording := true, isPaused := false, duration := 0,
                recordedUri := none },
       t0 ++ [Act.record, Act.wait 200])
    else
      (startFailState s,
       t0 ++ [Act.record, Act.wait 200, Act.alert "Recording Error"])

/-- pauseRecording: awaits the device pause then sets isPaused; a throw is
caught and logged (no state change). -/
def pauseRecording (ok : Bool) (s : RecState) : RecState × List Act :=
  if ok then ({ s with isPaused := true }, [Act.recorderPause])
  else (s, [Act.recorderPause])

/-- resumeRecording: awaits the device record call then clears isPaused; a
throw is caught and logged (no state change). -/
def resumeRecording (ok : Bool) (s : RecState) : RecState × List Act :=
  if ok then ({ s with isPaused := false }, [Act.record])
  else (s, [Act.record])

/-- playRecording: returns immediately with no action when there is no
recorded uri; otherwise pauses any in-flight playback (plus a 100ms wait),
seeks to position 0, sets the audio mode to playback (recording
disallowed), and plays.  A failure of the awaited mode call lands in the
catch block which clears isPlaying. -/
def playRecording (modeOk : Bool) (s : RecState) : RecState × List Act :=
  match s.recordedUri with
  | none => (s, [])
  | some _ =>
    let pre : List Act :=
      if s.isPlaying then [Act.playerPause, Act.wait 100] else []
    if modeOk then
      ({ s with isPlaying := true },
       pre ++ [Act.playerSeekTo 0, Act.setAudioMode false, Act.playerPlay])
    else
      ({ s with isPlaying := false },
       pre ++ [Act.playerSeekTo 0, Act.setAudioMode false])

/-- pausePlayback: issues the player pause and clears isPlaying. -/
def pausePlayback (s : RecState) : RecState × List Act :=
  ({ s with isPlaying := false }, [Act.playerPause])

/-- The play/pause button: pausePlayback while playing, playRecording
otherwise (the onPress handler of the playback button). -/
def togglePlay (modeOk : Bool) (s : RecState) : RecState × List Act :=
  if s.isPlaying then pausePlayback s else playRecording modeOk s

/-- cleanupRecording: best-effort teardown — stop the recorder if it is
recording, pause the player if it is playing, clear both interval refs
(their running status is derived here).  Device errors during teardown are
swallowed. -/
def cleanupRecording (s : RecState) : RecState × List Act :=
  let a1 : List Act := if s.isRecording then [Act.recorderStop] else []
  let p : RecState × List Act :=
    if s.isPlaying then ({ s with isPlaying := false }, [Act.playerPause])
    else (s, [])
  (p.1, a1 ++ p.2)

/-- handleClose: cleanupRecording followed by a reset of all recording
fields (isPlaying and the pending warning timeout are not touched by the
reset itself) and the onClose callback. -/
def handleClose (s : RecState) : RecState × List Act :=
  let p := cleanupRecording s
  ({ p.1 with isRecording := false, isPaused := false, duration := 0,
              recordedUri := none, showWarning := false, audioLevel := 0 },
   p.2 ++ [Act.onClose])

/-- handleSave: fires onSave with the uri and duration only when a
recorded uri exists and the duration is positive, then closes. -/
def handleSave (s : RecState) : RecState × List Act :=
  match s.recordedUri with
  | some u =>
      if 0 < s.duration then
        let p := handleClose s
        (p.1, Act.onSave u s.duration :: p.2)
      else (s, [])
  | none => (s, [])

/-- The record-again button handler: pauses playback if playing, then
resets the recording fields (showWarning is not touched). -/
def recordAgain (s : RecState) : RecState × List Act :=
  let p : RecState × List Act :=
    if s.isPlaying then ({ s with isPlaying := false }, [Act.playerPause])
    else (s, [])
  ({ p.1 with isRecording := false, isPaused := false, duration := 0,
              recordedUri := none, audioLevel := 0 },
   p.2)

/-- Events of the recorder: a wall-clock second (carrying the device
status it would read), a metering sample, and each user-driven operation
with the success bits of its awaited device calls. -/
inductive Ev where
  | second (dev : DevStatus) (stopOk : Bool)
  | meter (m : Option ℚ)
  | start (env : StartEnv)
  | pause (ok : Bool)
  | resume (ok : Bool)
  | stop (ok : Bool) (uri : Option String)
  | togglePlay (modeOk : Bool)
  | close
  | save
  | again
  deriving Repr, DecidableEq

/-- Step function: the state and action list produced by one event. -/
def step : Ev → RecState → RecState × List Act
  | .second dev ok, s => secondStep dev ok s
  | .meter m, s => (if meteringActive s then meteringTick m s else s, [])
  | .start env, s => startRecording env s
  | .pause ok, s => pauseRecording ok s
  | .resume ok, s => resumeRecording ok s
  | .stop ok uri, s => stopRecording ok uri s
  | .togglePlay modeOk, s => togglePlay modeOk s
  | .close, s => handleClose s
  | .save, s => handleSave s
  | .again, s => recordAgain s

/-- State after one event. -/
def stepS (e : Ev) (s : RecState) : RecState := (step e s).1

/-- Actions performed by one event. -/
def acts (e : Ev) (s : RecState) : List Act := (step e s).2

/-- State after a list of events. -/
def run : List Ev → RecState → RecState
  | [], s => s
  | e :: es, s => run es (stepS e s)

/-- Number of wall-clock-second events in a list. -/
def countSeconds : List Ev → Nat
  | [] => 0
  | .second _ _ :: es => countSeconds es + 1
  | _ :: es => countSeconds es

/-- Events that can occur inside one recording session, i.e. everything
except the session-destroying resets (start, close, save, record-again). -/
def isSessionEv : Ev → Bool
  | .second _ _ => true
  | .meter _ => true
  | .pause _ => true
  | .resume _ => true
  | .stop _ _ => true
  | .togglePlay _ => true
  | _ => false

/-- Reachable component states. -/
inductive Reachable : RecState → Prop where
  | init : Reachable initState
  | step : ∀ {s} (e : Ev), Reachable s → Reachable (stepS e s)

/-- The spec's Idle/Recording/Paused/Stopped view of the component state.
The source keeps no explicit enum: Recording/Paused are the flag pair; a
non-recording state counts as Stopped when it still carries a session
result — an artifact uri or a retained positive elapsed duration (every
reset path of the source, namely the initial state, handleClose,
record-again and the startRecording catch block, zeroes the duration, so a
positive duration outside recording marks a stopped session). -/
def sessionState (s : RecState) : SessionState :=
  if s.isRecording then (if s.isPaused then .paused else .recording)
  else if s.recordedUri.isSome || s.duration != 0 then .stopped
  else .idle

/-- All device calls succeed, the device is recording and will deliver a
fixed artifact uri: the canonical healthy environment. -/
def devRec : DevStatus := { isRecording := true, metering := none, uri := some "rec.m4a" }

/-- A start environment where everything succeeds. -/
def envOk : StartEnv :=
  { permGranted := true, modeOk := true, busyBefore := false, stopOk := true,
    prepareOk := true, recordOk := true, recordingAfter := true }

/-- A start environment where the device reports an existing active
capture before the new start, and everything succeeds. -/
def envBusy : StartEnv := { envOk with busyBefore := true }

/-- The state right after a fully successful startRecording from the
initial state. -/
def startedState : RecState := stepS (.start envOk) initState

/-- n wall-clock seconds in the canonical healthy environment. -/
def tickN : Nat → RecState → RecState
  | 0, s => s
  | n + 1, s => tickN n (stepS (.second devRec true) s)

/-- A device status whose verification read reports not recording. -/
def devDead : DevStatus := { isRecording := false, metering := none, uri := none }

/-- The canonical run after 100 healthy seconds. -/
def runA : RecState :=
  { isRecording := true, isPaused := false, duration := 100,
    recordedUri := none, showWarning := false, warningTimer := none,
    audioLevel := 0, isPlaying := false }

/-- The canonical run after 200 healthy seconds. -/
def runB : RecState :=
  { isRecording := true, isPaused := false, duration := 200,
    recordedUri := none, showWarning := false, warningTimer := none,
    audioLevel := 0, isPlaying := false }

/-- The canonical run after 300 healthy seconds: auto-stopped at the cap
with the maximal elapsed duration of 299. -/
def stoppedMax : RecState :=
  { isRecording := false, isPaused := false, duration := 299,
    recordedUri := some "rec.m4a", showWarning := false,
    warningTimer := none, audioLevel := 0, isPlaying := false }

/-- The canonical run after 270 healthy seconds: the warning has just
fired and its 3-second auto-clear is pending. -/
def warnState : RecState :=
  { isRecording := true, isPaused := false, duration := 270,
    recordedUri := none, showWarning := true, warningTimer := some 3,
    audioLevel := 0, isPlaying := false }

/-- The canonical run after 299 healthy seconds: one second before the
auto-stop, still recording. -/
def preStop : RecState :=
  { isRecording := true, isPaused := false, duration := 299,
    recordedUri := none, showWarning := false, warningTimer := none,
    audioLevel := 0, isPlaying := false }

/-- A recording state one second before the warning threshold. -/
def preWarn : RecState :=
  { isRecording := true, isPaused := false, duration := 269,
    recordedUri := none, showWarning := false, warningTimer := none,
    audioLevel := 0, isPlaying := false }

/-- Whether an event is a wall-clock second. -/
def isSecondEv : Ev → Bool
  | .second _ _ => true
  | _ => false

/-- guardedAux a b seen l: scanning l, every occurrence of b must be
preceded (in l, or by seen) by an occurrence of a. -/
def guardedAux (a b : Act) : Bool → List Act → Bool
  | _, [] => true
  | seen, x :: xs =>
      if x = b then seen && guardedAux a b seen xs
      else guardedAux a b (seen || x = a) xs

/-- Every occurrence of b in l is strictly preceded by an occurrence of a. -/
def guarded (a b : Act) (l : List Act) : Bool := guardedAux a b false l

set_option maxRecDepth 4000

/-- Ticking healthy seconds is compositional. -/
theorem tickN_add (m n : Nat) (s : RecState) :
    tickN (m + n) s = tickN n (tickN m s) := by
  induction m generalizing s with
  | zero =>
      rw [Nat.zero_add]
      rfl
  | succ m ih =>
      rw [Nat.succ_add]
      show tickN (m + n) (stepS (.second devRec true) s) = _
      rw [ih]
      rfl

/-- First hundred healthy seconds of the canonical run. -/
theorem tickN_chunk1 : tickN 100 startedState = runA := by decide

/-- Second hundred healthy seconds of the canonical run. -/
theorem tickN_chunk2 : tickN 100 runA = runB := by decide

/-- Third hundred healthy seconds: the warning fires and auto-clears, and
the recording auto-stops at the cap with duration 299. -/
theorem tickN_chunk3 : tickN 100 runB = stoppedMax := by decide

/-- Seventy healthy seconds past runB: the warning has just fired. -/
theorem tickN_chunk_warn : tickN 70 runB = warnState := by decide

/-- The canonical run reaches the auto-stopped state after 300 seconds. -/
theorem tickN_300_eq : tickN 300 startedState = stoppedMax := by
  have h : (300 : Nat) = 100 + (100 + 100) := by norm_num
  rw [h, tickN_add, tickN_chunk1, tickN_add, tickN_chunk2, tickN_chunk3]

/-- The canonical run shows the warning exactly at 270 seconds. -/
theorem tickN_270_eq : tickN 270 startedState = warnState := by
  have h : (270 : Nat) = 100 + (100 + 70) := by norm_num
  rw [h, tickN_add, tickN_chunk1, tickN_add, tickN_chunk2, tickN_chunk_warn]

/-- After the auto-stop the state is a fixed point of further seconds. -/
theorem stoppedMax_fixed : ∀ k, tickN k stoppedMax = stoppedMax := by
  intro k
  induction k with
  | zero => rfl
  | succ k ih =>
      show tickN k (stepS (.second devRec true) stoppedMax) = _
      have h : stepS (.second devRec true) stoppedMax = stoppedMax := by decide
      rw [h, ih]

/-- C5: every metering sample normalizes a defined decibel reading db to
clamp((db + 160) / 160, 0, 1) and treats a missing reading as level 0; in
particular -160 dB normalizes to 0 and -40 dB to 0.75, and the metering
callback stores exactly this normalized value as the audio level. -/
theorem c5_level_normalization :
    (∀ db : ℚ, normalizeMetering (some db) = max 0 (min 1 ((db + 160) / 160))) ∧
    normalizeMetering none = 0 ∧
    normalizeMetering (some (-160)) = 0 ∧
    normalizeMetering (some (-40)) = 3 / 4 ∧
    (∀ (s : RecState) (m : Option ℚ), meteringActive s = true →
      (stepS (.meter m) s).audioLevel = normalizeMetering m) := by
  refine ⟨fun db => rfl, rfl, ?_, ?_, ?_⟩
  · show max 0 (min 1 (((-160 : ℚ) + 160) / 160)) = 0
    norm_num
  · show max 0 (min 1 (((-40 : ℚ) + 160) / 160)) = 3 / 4
    norm_num
  · intro s m h
    simp [stepS, step, h, meteringTick]

/-- Witness for C5 at a concrete recording state and reading. -/
theorem c5_witness :
    meteringActive runA = true ∧
    (stepS (.meter (some (-40))) runA).audioLevel = normalizeMetering (some (-40)) :=
  ⟨by decide, c5_level_normalization.2.2.2.2 runA (some (-40)) (by decide)⟩

/-- C6: the close path is idempotent — a second handleClose leaves the
state of the first unchanged and performs no device action (only the
onClose callback); the once-closed state is Idle with duration 0, no
artifact, warning cleared, and neither the duration timer nor the metering
interval running. -/
theorem c6_close_idempotent (s : RecState) :
    (handleClose (handleClose s).1).1 = (handleClose s).1 ∧
    (handleClose s).1.duration = 0 ∧
    (handleClose s).1.recordedUri = none ∧
    (handleClose s).1.showWarning = false ∧
    sessionState (handleClose s).1 = .idle ∧
    timersActive (handleClose s).1 = false ∧
    meteringActive (handleClose s).1 = false ∧
    (handleClose (handleClose s).1).2 = [Act.onClose] := by
  unfold handleClose cleanupRecording
  cases hp : s.isPlaying <;> cases hr : s.isRecording <;>
    simp [hp, hr, sessionState, timersActive, meteringActive]

/-- C7: startRecording never issues the record command before the audio
mode configuration has completed successfully, always prepares before
recording, and when the device reported an active capture it stops that
capture and waits 200ms (within the 300ms bound) before prepare/record. -/
theorem c7_start_ordering (env : StartEnv) (s : RecState) :
    guarded (Act.setAudioMode true) Act.record (startRecording env s).2 = true ∧
    guarded Act.prepare Act.record (startRecording env s).2 = true ∧
    (Act.record ∈ (startRecording env s).2 →
      env.permGranted = true ∧ env.modeOk = true) ∧
    (env.busyBefore = true →
      guarded Act.recorderStop Act.prepare (startRecording env s).2 = true ∧
      guarded (Act.wait 200) Act.prepare (startRecording env s).2 = true ∧
      guarded (Act.wait 200) Act.record (startRecording env s).2 = true ∧
      200 ≤ 300) := by
  obtain ⟨p, m, b, st, pr, r, ra⟩ := env
  cases p <;> cases m <;> cases b <;> cases st <;> cases pr <;> cases r <;> cases ra <;>
    simp [startRecording, guarded, guardedAux]

/-- Witness for C7 on a busy-device start environment. -/
theorem c7_witness :
    envBusy.permGranted = true ∧ envBusy.modeOk = true ∧
    guarded Act.recorderStop Act.prepare (startRecording envBusy initState).2 = true ∧
    guarded (Act.wait 200) Act.record (startRecording envBusy initState).2 = true := by
  have h := c7_start_ordering envBusy initState
  have hm : Act.record ∈ (startRecording envBusy initState).2 := by decide
  exact ⟨(h.2.2.1 hm).1, (h.2.2.1 hm).2, (h.2.2.2 rfl).1, (h.2.2.2 rfl).2.2.1⟩

/-- C8: the play/pause toggle, invoked while not playing, seeks to
position 0 and sets the device into playback mode (recording disallowed)
before ever issuing play, and with an artifact present it issues exactly
seek, mode, play; invoked while playing, it issues exactly a pause. -/
theorem c8_toggle_play (s : RecState) (modeOk : Bool) :
    (s.isPlaying = true →
      togglePlay modeOk s = ({ s with isPlaying := false }, [Act.playerPause])) ∧
    (s.isPlaying = false →
      guarded (Act.playerSeekTo 0) Act.playerPlay (togglePlay modeOk s).2 = true ∧
      guarded (Act.setAudioMode false) Act.playerPlay (togglePlay modeOk s).2 = true) ∧
    (s.isPlaying = false → ∀ u, s.recordedUri = some u →
      (togglePlay true s).2 =
        [Act.playerSeekTo 0, Act.setAudioMode false, Act.playerPlay] ∧
      (togglePlay true s).1.isPlaying = true) := by
  refine ⟨?_, ?_, ?_⟩
  · intro h
    simp [togglePlay, h, pausePlayback]
  · intro h
    cases hu : s.recordedUri <;> cases modeOk <;>
      simp [togglePlay, h, playRecording, hu, guarded, guardedAux]
  · intro h u hu
    simp [togglePlay, h, playRecording, hu]

/-- Witness for C8 on the auto-stopped state with its artifact. -/
theorem c8_witness :
    (togglePlay true { stoppedMax with isPlaying := true }).2 = [Act.playerPause] ∧
    (togglePlay true stoppedMax).2 =
      [Act.playerSeekTo 0, Act.setAudioMode false, Act.playerPlay] := by
  refine ⟨?_, ((c8_toggle_play stoppedMax true).2.2 rfl "rec.m4a" rfl).1⟩
  rw [(c8_toggle_play { stoppedMax with isPlaying := true } true).1 rfl]

/-- C9: when stop succeeds but the device returns no artifact uri, the
session still leaves Recording into Stopped (the elapsed duration is
retained, so the state is not the Idle reset) with a null artifact, and
handleSave never fires onSave for a null artifact. -/
theorem c9_missing_artifact (s : RecState)
    (_hrec : s.isRecording = true) (huri : s.recordedUri = none)
    (hdur : 0 < s.duration) :
    sessionState (stopRecording true none s).1 = .stopped ∧
    (stopRecording true none s).1.recordedUri = none ∧
    sessionState (stopRecording true none s).1 ≠ .idle ∧
    (∀ t u d, Act.onSave u d ∈ (handleSave t).2 → t.recordedUri = some u ∧ 0 < d) ∧
    (∀ t, t.recordedUri = none → handleSave t = (t, [])) := by
  have hd : (s.duration != 0) = true := by
    simp only [bne_iff_ne, ne_eq]
    omega
  refine ⟨?_, ?_, ?_, ?_, ?_⟩
  · simp [stopRecording, sessionState, huri, hd]
  · simp [stopRecording, huri]
  · simp [stopRecording, sessionState, huri, hd]
  · intro t u d hmem
    cases ht : t.recordedUri with
    | none => simp [handleSave, ht] at hmem
    | some v =>
        by_cases hpos : 0 < t.duration
        · cases htr : t.isRecording <;> cases htp : t.isPlaying <;>
            simp [handleSave, ht, hpos, handleClose, cleanupRecording, htr, htp] at hmem <;>
            exact ⟨by simp [ht, hmem.1], by omega⟩
        · simp [handleSave, ht, hpos] at hmem
  · intro t ht
    simp [handleSave, ht]

/-- Witness for C9 five seconds into the canonical run. -/
theorem c9_witness :
    sessionState (stopRecording true none (tickN 5 startedState)).1 = .stopped ∧
    (stopRecording true none (tickN 5 startedState)).1.recordedUri = none ∧
    handleSave (stopRecording true none (tickN 5 startedState)).1 =
      ((stopRecording true none (tickN 5 startedState)).1, []) := by
  have h := c9_missing_artifact (tickN 5 startedState) (by decide) (by decide) (by decide)
  exact ⟨h.1, h.2.1, h.2.2.2.2 _ h.2.1⟩

/-- The warning timeout machinery does not touch the recording fields. -/
theorem wts_fields (s : RecState) :
    (warningTimeoutStep s).isRecording = s.isRecording ∧
    (warningTimeoutStep s).isPaused = s.isPaused ∧
    (warningTimeoutStep s).duration = s.duration ∧
    (warningTimeoutStep s).recordedUri = s.recordedUri := by
  unfold warningTimeoutStep
  cases hw : s.warningTimer with
  | none => exact ⟨rfl, rfl, rfl, rfl⟩
  | some k => by_cases h : k ≤ 1 <;> simp [h]

/-- The warning timeout machinery never raises the warning flag. -/
theorem wts_showWarning (s : RecState) :
    (warningTimeoutStep s).showWarning = true → s.showWarning = true := by
  unfold warningTimeoutStep
  cases hw : s.warningTimer with
  | none => exact fun h => h
  | some k => by_cases h : k ≤ 1 <;> simp [h]

/-- A wall-clock second is the timeout machinery followed by the timer
callback exactly when the timer is running. -/
theorem second_char (dev : DevStatus) (ok : Bool) (s : RecState) :
    stepS (.second dev ok) s =
      (if timersActive s then (timerTick dev ok (warningTimeoutStep s)).1
       else warningTimeoutStep s) ∧
    acts (.second dev ok) s =
      (if timersActive s then (timerTick dev ok (warningTimeoutStep s)).2
       else []) := by
  have hw := wts_fields s
  have hta : timersActive (warningTimeoutStep s) = timersActive s := by
    simp [timersActive, hw.1, hw.2.1]
  constructor <;> simp only [stepS, acts, step, secondStep, hta] <;> split <;> rfl

/-- The timer callback either keeps the duration (device mismatch or cap)
or increments it strictly below the cap. -/
theorem timerTick_duration (dev : DevStatus) (ok : Bool) (t : RecState) :
    (timerTick dev ok t).1.duration = t.duration ∨
    ((timerTick dev ok t).1.duration = t.duration + 1 ∧
      t.duration + 1 < MAX_DURATION) := by
  unfold timerTick stopRecording
  by_cases hdev : dev.isRecording <;>
    simp [hdev, MAX_DURATION, WARNING_DURATION] <;>
    split_ifs <;> simp <;> omega

/-- Any event other than a wall-clock second preserves the pending warning
timeout, never raises the warning flag, and either preserves the duration
or resets it to 0. -/
theorem nonsecond_facts (e : Ev) (s : RecState) (he : isSecondEv e = false) :
    (stepS e s).warningTimer = s.warningTimer ∧
    ((stepS e s).showWarning = true → s.showWarning = true) ∧
    ((stepS e s).duration = s.duration ∨ (stepS e s).duration = 0) := by
  cases e with
  | second dev ok => simp [isSecondEv] at he
  | meter m =>
      simp only [stepS, step]
      split <;> simp [meteringTick]
  | start env =>
      simp only [stepS, step]
      unfold startRecording startFailState
      split_ifs <;> simp
  | pause ok =>
      simp only [stepS, step]
      unfold pauseRecording
      split_ifs <;> simp
  | resume ok =>
      simp only [stepS, step]
      unfold resumeRecording
      split_ifs <;> simp
  | stop ok uri =>
      simp only [stepS, step]
      unfold stopRecording
      split_ifs <;> simp
  | togglePlay modeOk =>
      simp only [stepS, step]
      unfold togglePlay pausePlayback playRecording
      by_cases hp : s.isPlaying <;> cases hu : s.recordedUri <;>
        simp [hp, hu] <;> split_ifs <;> simp
  | close =>
      simp only [stepS, step]
      unfold handleClose cleanupRecording
      by_cases hp : s.isPlaying <;> by_cases hr : s.isRecording <;> simp [hp, hr]
  | save =>
      simp only [stepS, step]
      unfold handleSave handleClose cleanupRecording
      cases hu : s.recordedUri <;>
        by_cases hp : s.isPlaying <;> by_cases hr : s.isRecording <;>
        simp [hu, hp, hr] <;> split_ifs <;> simp
  | again =>
      simp only [stepS, step]
      unfold recordAgain
      by_cases hp : s.isPlaying <;> simp [hp]

/-- Session events never decrease the duration. -/
theorem session_dur_mono (e : Ev) (s : RecState) (he : isSessionEv e = true) :
    s.duration ≤ (stepS e s).duration := by
  cases e with
  | second dev ok =>
      obtain ⟨hs, -⟩ := second_char dev ok s
      rw [hs]
      have hw := (wts_fields s).2.2.1
      split
      · rcases timerTick_duration dev ok (warningTimeoutStep s) with h1 | ⟨h1, h2⟩ <;> omega
      · omega
  | meter m =>
      simp only [stepS, step]
      split <;> simp [meteringTick]
  | pause ok =>
      simp only [stepS, step]
      unfold pauseRecording
      split_ifs <;> simp
  | resume ok =>
      simp only [stepS, step]
      unfold resumeRecording
      split_ifs <;> simp
  | stop ok uri =>
      simp only [stepS, step]
      unfold stopRecording
      split_ifs <;> simp
  | togglePlay modeOk =>
      simp only [stepS, step]
      unfold togglePlay pausePlayback playRecording
      by_cases hp : s.isPlaying <;> cases hu : s.recordedUri <;>
        simp [hp, hu] <;> split_ifs <;> simp
  | start env => simp [isSessionEv] at he
  | close => simp [isSessionEv] at he
  | save => simp [isSessionEv] at he
  | again => simp [isSessionEv] at he

/-- One step keeps the duration at or below 299. -/
theorem step_dur_le (e : Ev) (s : RecState) (h : s.duration ≤ 299) :
    (stepS e s).duration ≤ 299 := by
  cases e with
  | second dev ok =>
      obtain ⟨hs, -⟩ := second_char dev ok s
      rw [hs]
      have hw := (wts_fields s).2.2.1
      split
      · rcases timerTick_duration dev ok (warningTimeoutStep s) with h1 | ⟨h1, h2⟩
        · omega
        · simp [MAX_DURATION] at h2
          omega
      · omega
  | meter m => rcases (nonsecond_facts (.meter m) s rfl).2.2 with h1 | h1 <;> omega
  | start env => rcases (nonsecond_facts (.start env) s rfl).2.2 with h1 | h1 <;> omega
  | pause ok => rcases (nonsecond_facts (.pause ok) s rfl).2.2 with h1 | h1 <;> omega
  | resume ok => rcases (nonsecond_facts (.resume ok) s rfl).2.2 with h1 | h1 <;> omega
  | stop ok uri =>
      rcases (nonsecond_facts (.stop ok uri) s rfl).2.2 with h1 | h1 <;> omega
  | togglePlay modeOk =>
      rcases (nonsecond_facts (.togglePlay modeOk) s rfl).2.2 with h1 | h1 <;> omega
  | close => rcases (nonsecond_facts .close s rfl).2.2 with h1 | h1 <;> omega
  | save => rcases (nonsecond_facts .save s rfl).2.2 with h1 | h1 <;> omega
  | again => rcases (nonsecond_facts .again s rfl).2.2 with h1 | h1 <;> omega

/-- Every reachable state has duration at most 299. -/
theorem reachable_dur_le : ∀ {s : RecState}, Reachable s → s.duration ≤ 299 := by
  intro s h
  induction h with
  | init => decide
  | step e hr ih => exact step_dur_le e _ ih

/-- Reachability is preserved by ticking healthy seconds. -/
theorem reachable_tickN (n : Nat) {s : RecState} (h : Reachable s) :
    Reachable (tickN n s) := by
  induction n generalizing s with
  | zero => exact h
  | succ n ih => exact ih (Reachable.step _ h)

/-- onSave is only ever emitted with the stored artifact uri and the
positive stored duration. -/
theorem handleSave_onSave (t : RecState) (u : String) (d : Nat)
    (hmem : Act.onSave u d ∈ (handleSave t).2) :
    t.recordedUri = some u ∧ d = t.duration ∧ 0 < t.duration := by
  cases ht : t.recordedUri with
  | none => simp [handleSave, ht] at hmem
  | some v =>
      by_cases hpos : 0 < t.duration
      · cases htr : t.isRecording <;> cases htp : t.isPlaying <;>
          simp [handleSave, ht, hpos, handleClose, cleanupRecording, htr, htp] at hmem <;>
          exact ⟨by simp [ht, hmem.1], hmem.2, hpos⟩
      · simp [handleSave, ht, hpos] at hmem

/-- C10: the elapsed duration never exceeds 299 in any reachable state;
the tick that would reach 300 triggers the automatic stop but keeps the
previous value, so a maximal auto-stopped session reports and saves a
duration of 299 — never 300. -/
theorem c10_duration_cap :
    (∀ s : RecState, Reachable s → s.duration ≤ 299) ∧
    (tickN 300 startedState).duration = 299 ∧
    acts .save (tickN 300 startedState) = [Act.onSave "rec.m4a" 299, Act.onClose] ∧
    (∀ (s : RecState) (u : String) (d : Nat), Reachable s →
      Act.onSave u d ∈ acts .save s → d ≤ 299 ∧ 0 < d) := by
  refine ⟨fun s h => reachable_dur_le h, ?_, ?_, ?_⟩
  · rw [tickN_300_eq]
    rfl
  · rw [tickN_300_eq]
    decide
  · intro s u d hr hmem
    obtain ⟨h1, h2, h3⟩ := handleSave_onSave s u d hmem
    have h4 := reachable_dur_le hr
    omega

/-- Witness for C10 at the initial state and at the saved maximal run. -/
theorem c10_witness :
    initState.duration ≤ 299 ∧ ((299 : Nat) ≤ 299 ∧ 0 < (299 : Nat)) := by
  have h := c10_duration_cap
  refine ⟨h.1 initState Reachable.init, ?_⟩
  have hr : Reachable (tickN 300 startedState) :=
    reachable_tickN 300 (Reachable.step (.start envOk) Reachable.init)
  refine h.2.2.2 (tickN 300 startedState) "rec.m4a" 299 hr ?_
  rw [tickN_300_eq]
  decide

/-- C1 counterexample: the canonical session that is started and ticked
without any manual stop never shows elapsedSeconds equal to 300 — at tick
300 the automatic stop has fired while the duration still reads 299. -/
theorem c1_counterexample :
    (tickN 299 startedState).duration = 299 ∧
    (tickN 300 startedState).duration = 299 ∧
    (tickN 300 startedState).isRecording = false ∧
    (tickN 301 startedState).duration = 299 := by
  have h299 : tickN 299 startedState = preStop := by
    have h : (299 : Nat) = 100 + (100 + 99) := by norm_num
    rw [h, tickN_add, tickN_chunk1, tickN_add, tickN_chunk2]
    decide
  have h301 : tickN 301 startedState = stoppedMax := by
    have h : (301 : Nat) = 300 + 1 := by norm_num
    rw [h, tickN_add, tickN_300_eq]
    decide
  rw [h299, h301, tickN_300_eq]
  decide

/-- C1 as amended: the duration of every reachable state stays strictly
below MAX_DURATION, so the stated implication holds only vacuously; the
unstopped canonical session auto-stops on the tick that would reach 300,
ending Stopped with elapsedSeconds 299, and is then a fixed point of
further ticks. -/
theorem c1_auto_stop (s : RecState) (hr : Reachable s) :
    s.duration < MAX_DURATION ∧
    tickN 300 startedState = stoppedMax ∧
    sessionState (tickN 300 startedState) = .stopped ∧
    (tickN 300 startedState).isRecording = false ∧
    (tickN 300 startedState).duration = 299 ∧
    (∀ k, tickN k (tickN 300 startedState) = tickN 300 startedState) := by
  refine ⟨?_, tickN_300_eq, ?_, ?_, ?_, ?_⟩
  · have h := reachable_dur_le hr
    simp [MAX_DURATION]
    omega
  · rw [tickN_300_eq]
    decide
  · rw [tickN_300_eq]
    rfl
  · rw [tickN_300_eq]
    rfl
  · intro k
    rw [tickN_300_eq]
    exact stoppedMax_fixed k

/-- Witness for C1 at the initial state. -/
theorem c1_witness :
    initState.duration < MAX_DURATION ∧ (tickN 300 startedState).duration = 299 :=
  ⟨(c1_auto_stop initState Reachable.init).1,
   (c1_auto_stop initState Reachable.init).2.2.2.2.1⟩

/-- C2 counterexample: with a recording session at 5 seconds whose device
verification read reports not recording, the timer tick performs no
outward action at all (in particular no user-facing error), retains the
duration, and leaves a state that is not Idle — contradicting the claimed
alert-and-reset-to-Idle handling for timer-tick mismatches. -/
theorem c2_counterexample :
    acts (.second devDead true) (tickN 5 startedState) = [] ∧
    (stepS (.second devDead true) (tickN 5 startedState)).duration = 5 ∧
    sessionState (stepS (.second devDead true) (tickN 5 startedState)) = .stopped := by
  decide

/-- C2 as amended: a failed post-start verification (record call returned
but the device reports not recording) is caught, raises a user-facing
alert and resets the session to Idle with duration 0 and no timers
running; a duration-timer tick that finds the device no longer recording
stops the timer and clears the recording flag, but emits no user-facing
error and retains the elapsed duration. -/
theorem c2_device_mismatch :
    (∀ (s : RecState) (env : StartEnv), env.permGranted = true →
      env.modeOk = true → env.prepareOk = true → env.recordOk = true →
      env.recordingAfter = false → (env.busyBefore = true → env.stopOk = true) →
      s.recordedUri = none →
      sessionState (startRecording env s).1 = .idle ∧
      (startRecording env s).1.duration = 0 ∧
      timersActive (startRecording env s).1 = false ∧
      Act.alert "Recording Error" ∈ (startRecording env s).2) ∧
    (∀ (s : RecState) (dev : DevStatus) (ok : Bool), timersActive s = true →
      dev.isRecording = false →
      (stepS (.second dev ok) s).isRecording = false ∧
      timersActive (stepS (.second dev ok) s) = false ∧
      (stepS (.second dev ok) s).duration = s.duration ∧
      acts (.second dev ok) s = []) := by
  constructor
  · intro s env hp hm hpr hr hra hbs hu
    cases hb : env.busyBefore
    · simp [startRecording, startFailState, sessionState, timersActive,
            hp, hm, hpr, hr, hra, hb, hu]
    · have hst := hbs hb
      simp [startRecording, startFailState, sessionState, timersActive,
            hp, hm, hpr, hr, hra, hb, hst, hu]
  · intro s dev ok hta hdev
    obtain ⟨hs, ha⟩ := second_char dev ok s
    have hw := wts_fields s
    rw [hs, ha]
    simp only [hta, if_true]
    unfold timerTick
    simp [hdev, timersActive, hw.1, hw.2.1, hw.2.2.1]

/-- Witness for C2 on a concrete failed start and a concrete dead tick. -/
theorem c2_witness :
    sessionState (startRecording { envOk with recordingAfter := false } initState).1 = .idle ∧
    Act.alert "Recording Error" ∈
      (startRecording { envOk with recordingAfter := false } initState).2 ∧
    (stepS (.second devDead true) (tickN 5 startedState)).isRecording = false ∧
    acts (.second devDead true) (tickN 5 startedState) = [] := by
  have h1 := c2_device_mismatch.1 initState { envOk with recordingAfter := false }
    (by decide) (by decide) (by decide) (by decide) (by decide) (by decide) rfl
  have h2 := c2_device_mismatch.2 (tickN 5 startedState) devDead true
    (by decide) (by decide)
  exact ⟨h1.1, h1.2.2.2, h2.1, h2.2.2.2⟩

/-- C3 counterexample: a reachable Stopped state (stopped at 12 seconds
with an artifact) on which the close transition changes elapsedSeconds
from 12 down to 0 — the value changes, and decreases, while sessionState
is Stopped, not Recording. -/
theorem c3_counterexample :
    sessionState (stepS (.stop true (some "rec.m4a")) (tickN 12 startedState)) = .stopped ∧
    (stepS (.stop true (some "rec.m4a")) (tickN 12 startedState)).duration = 12 ∧
    (stepS .close (stepS (.stop true (some "rec.m4a")) (tickN 12 startedState))).duration = 0 := by
  decide

/-- C3 as amended: elapsedSeconds strictly increases only out of a
Recording state, never decreases except by a reset to 0 performed by the
session-destroying transitions, is non-decreasing under all within-session
events, and is frozen by seconds spent Paused. -/
theorem c3_duration_freeze :
    (∀ (e : Ev) (s : RecState), s.duration < (stepS e s).duration →
      sessionState s = .recording) ∧
    (∀ (e : Ev) (s : RecState), (stepS e s).duration < s.duration →
      (stepS e s).duration = 0) ∧
    (∀ (e : Ev) (s : RecState), isSessionEv e = true →
      s.duration ≤ (stepS e s).duration) ∧
    (∀ (dev : DevStatus) (ok : Bool) (s : RecState), sessionState s = .paused →
      (stepS (.second dev ok) s).duration = s.duration) := by
  refine ⟨?_, ?_, fun e s he => session_dur_mono e s he, ?_⟩
  · intro e s hlt
    cases e with
    | second dev ok =>
        obtain ⟨hs, -⟩ := second_char dev ok s
        rw [hs] at hlt
        have hw := (wts_fields s).2.2.1
        cases hta : timersActive s with
        | true =>
            have h1 := hta
            simp [timersActive] at h1
            simp [sessionState, h1.1, h1.2]
        | false =>
            simp [hta] at hlt
            omega
    | meter m => rcases (nonsecond_facts (.meter m) s rfl).2.2 with h | h <;> omega
    | start env => rcases (nonsecond_facts (.start env) s rfl).2.2 with h | h <;> omega
    | pause ok => rcases (nonsecond_facts (.pause ok) s rfl).2.2 with h | h <;> omega
    | resume ok => rcases (nonsecond_facts (.resume ok) s rfl).2.2 with h | h <;> omega
    | stop ok uri =>
        rcases (nonsecond_facts (.stop ok uri) s rfl).2.2 with h | h <;> omega
    | togglePlay modeOk =>
        rcases (nonsecond_facts (.togglePlay modeOk) s rfl).2.2 with h | h <;> omega
    | close => rcases (nonsecond_facts .close s rfl).2.2 with h | h <;> omega
    | save => rcases (nonsecond_facts .save s rfl).2.2 with h | h <;> omega
    | again => rcases (nonsecond_facts .again s rfl).2.2 with h | h <;> omega
  · intro e s hlt
    cases e with
    | second dev ok =>
        obtain ⟨hs, -⟩ := second_char dev ok s
        rw [hs] at hlt ⊢
        have hw := (wts_fields s).2.2.1
        cases hta : timersActive s with
        | true =>
            simp only [hta] at hlt ⊢
            simp only [if_true] at hlt ⊢
            rcases timerTick_duration dev ok (warningTimeoutStep s) with h | ⟨h, -⟩ <;> omega
        | false =>
            simp [hta] at hlt
            omega
    | meter m => rcases (nonsecond_facts (.meter m) s rfl).2.2 with h | h <;> omega
    | start env => rcases (nonsecond_facts (.start env) s rfl).2.2 with h | h <;> omega
    | pause ok => rcases (nonsecond_facts (.pause ok) s rfl).2.2 with h | h <;> omega
    | resume ok => rcases (nonsecond_facts (.resume ok) s rfl).2.2 with h | h <;> omega
    | stop ok uri =>
        rcases (nonsecond_facts (.stop ok uri) s rfl).2.2 with h | h <;> omega
    | togglePlay modeOk =>
        rcases (nonsecond_facts (.togglePlay modeOk) s rfl).2.2 with h | h <;> omega
    | close => rcases (nonsecond_facts .close s rfl).2.2 with h | h <;> omega
    | save => rcases (nonsecond_facts .save s rfl).2.2 with h | h <;> omega
    | again => rcases (nonsecond_facts .again s rfl).2.2 with h | h <;> omega
  · intro dev ok s hpaused
    have h1 : s.isRecording = true ∧ s.isPaused = true := by
      cases hr : s.isRecording with
      | false =>
          exfalso
          simp [sessionState, hr] at hpaused
          split at hpaused <;> simp at hpaused
      | true =>
          cases hp : s.isPaused with
          | false => simp [sessionState, hr, hp] at hpaused
          | true => exact ⟨rfl, rfl⟩
    have hta : timersActive s = false := by
      simp [timersActive, h1.1, h1.2]
    obtain ⟨hs, -⟩ := second_char dev ok s
    rw [hs]
    simp [hta, (wts_fields s).2.2.1]

/-- Witness for C3 on concrete recording, stopped and paused states. -/
theorem c3_witness :
    sessionState (tickN 5 startedState) = .recording ∧
    (stepS .close (stepS (.stop true (some "rec.m4a")) (tickN 12 startedState))).duration = 0 ∧
    (tickN 5 startedState).duration ≤
      (stepS (.second devRec true) (tickN 5 startedState)).duration ∧
    (stepS (.second devRec true) { preWarn with isPaused := true }).duration =
      ({ preWarn with isPaused := true } : RecState).duration := by
  have h := c3_duration_freeze
  exact ⟨h.1 (.second devRec true) (tickN 5 startedState) (by decide),
         h.2.1 .close (stepS (.stop true (some "rec.m4a")) (tickN 12 startedState)) (by decide),
         h.2.2.1 (.second devRec true) (tickN 5 startedState) rfl,
         h.2.2.2 devRec true { preWarn with isPaused := true } (by decide)⟩

/-- The timer callback on a device mismatch only clears the recording
flag. -/
theorem timerTick_mismatch (dev : DevStatus) (ok : Bool) (t : RecState)
    (hdev : dev.isRecording = false) :
    timerTick dev ok t = ({ t with isRecording := false }, []) := by
  unfold timerTick
  simp [hdev]

/-- The timer callback at duration 269 with a healthy device fires the
warning: duration 270, warning shown, 3-second clear pending. -/
theorem timerTick_fire (dev : DevStatus) (ok : Bool) (t : RecState)
    (hdev : dev.isRecording = true) (hd : t.duration = 269) :
    timerTick dev ok t =
      ({ t with duration := 270, showWarning := true, warningTimer := some 3 }, []) := by
  unfold timerTick
  simp [hdev, hd, WARNING_DURATION, MAX_DURATION]

/-- Away from duration 269 the timer callback never touches the warning
flag or its pending timeout, and moves the duration by at most one. -/
theorem timerTick_nofire (dev : DevStatus) (ok : Bool) (t : RecState)
    (hd : t.duration ≠ 269) :
    (timerTick dev ok t).1.showWarning = t.showWarning ∧
    (timerTick dev ok t).1.warningTimer = t.warningTimer ∧
    ((timerTick dev ok t).1.duration = t.duration ∨
      (timerTick dev ok t).1.duration = t.duration + 1) := by
  unfold timerTick stopRecording
  by_cases hdev : dev.isRecording <;>
    simp [hdev, WARNING_DURATION, MAX_DURATION] <;>
    split_ifs <;> simp <;> omega

/-- A non-second event keeps a cleared warning flag cleared. -/
theorem step_warn_false (e : Ev) (s : RecState) (he : isSecondEv e = false)
    (hsw : s.showWarning = false) : (stepS e s).showWarning = false := by
  cases hb : (stepS e s).showWarning
  · rfl
  · exact absurd ((nonsecond_facts e s he).2.1 hb) (by simp [hsw])

/-- A run without wall-clock seconds keeps a cleared warning flag
cleared. -/
theorem warn_still_false (es : List Ev) :
    ∀ (s : RecState), countSeconds es = 0 → s.showWarning = false →
    (run es s).showWarning = false := by
  induction es with
  | nil => exact fun s _ hsw => hsw
  | cons e es ih =>
      intro s hc hsw
      cases e with
      | second dev ok => simp [countSeconds] at hc
      | meter m => exact ih _ hc (step_warn_false (.meter m) s rfl hsw)
      | start env => exact ih _ hc (step_warn_false (.start env) s rfl hsw)
      | pause ok => exact ih _ hc (step_warn_false (.pause ok) s rfl hsw)
      | resume ok => exact ih _ hc (step_warn_false (.resume ok) s rfl hsw)
      | stop ok uri => exact ih _ hc (step_warn_false (.stop ok uri) s rfl hsw)
      | togglePlay modeOk =>
          exact ih _ hc (step_warn_false (.togglePlay modeOk) s rfl hsw)
      | close => exact ih _ hc (step_warn_false .close s rfl hsw)
      | save => exact ih _ hc (step_warn_false .save s rfl hsw)
      | again => exact ih _ hc (step_warn_false .again s rfl hsw)

/-- A non-second event preserves a pending warning timeout together with
the countdown invariant on the duration. -/
theorem nonsecond_clear_step (e : Ev) (s : RecState) (he : isSecondEv e = false)
    (j : Nat) (hj : s.warningTimer = some j) (h3 : j ≤ 3)
    (hd : 270 ≤ s.duration ∨ s.duration + j ≤ 3) :
    (stepS e s).warningTimer = some j ∧
    (270 ≤ (stepS e s).duration ∨ (stepS e s).duration + j ≤ 3) := by
  obtain ⟨h1, -, h2⟩ := nonsecond_facts e s he
  refine ⟨h1.trans hj, ?_⟩
  rcases h2 with h2 | h2 <;> omega

/-- Countdown lemma: once the warning-clear timeout is pending with j
seconds left (and the duration is either past the threshold or tiny), the
warning flag reads false after any event sequence containing exactly j
wall-clock seconds. -/
theorem warn_clear_aux (es : List Ev) :
    ∀ (j : Nat) (s : RecState), s.warningTimer = some j → 1 ≤ j → j ≤ 3 →
    (270 ≤ s.duration ∨ s.duration + j ≤ 3) →
    countSeconds es = j →
    (run es s).showWarning = false := by
  induction es with
  | nil =>
      intro j s hj h1 h3 hd hc
      simp [countSeconds] at hc
      omega
  | cons e es ih =>
      intro j s hj h1 h3 hd hc
      cases e with
      | second dev ok =>
          have hc2 : countSeconds es + 1 = j := by simpa [countSeconds] using hc
          obtain ⟨hs, -⟩ := second_char dev ok s
          show (run es (stepS (.second dev ok) s)).showWarning = false
          rw [hs]
          by_cases hj1 : j ≤ 1
          · have hwts : warningTimeoutStep s =
                { s with showWarning := false, warningTimer := none } := by
              unfold warningTimeoutStep
              rw [hj]
              simp [hj1]
            rw [hwts]
            have hsw2 : (if timersActive s then
                (timerTick dev ok
                  { s with showWarning := false, warningTimer := none }).1
                else { s with showWarning := false, warningTimer := none }).showWarning
                = false := by
              split
              · cases hdev : dev.isRecording with
                | false =>
                    rw [timerTick_mismatch dev ok _ hdev]
                | true =>
                    have hne :
                        ({ s with showWarning := false, warningTimer := none } : RecState).duration ≠ 269 := by
                      simp
                      omega
                    exact (timerTick_nofire dev ok _ hne).1
              · rfl
            exact warn_still_false es _ (by omega) hsw2
          · have hwts : warningTimeoutStep s =
                { s with warningTimer := some (j - 1) } := by
              unfold warningTimeoutStep
              rw [hj]
              simp [hj1]
            rw [hwts]
            split
            · cases hdev : dev.isRecording with
              | false =>
                  rw [timerTick_mismatch dev ok _ hdev]
                  refine ih (j - 1) _ rfl (by omega) (by omega) ?_ (by omega)
                  rcases hd with hd | hd
                  · exact Or.inl (by simpa using hd)
                  · refine Or.inr ?_
                    simp
                    omega
              | true =>
                  have hne : ({ s with warningTimer := some (j - 1) } : RecState).duration ≠ 269 := by
                    simp
                    omega
                  obtain ⟨hsw3, hwt3, hdur3⟩ := timerTick_nofire dev ok _ hne
                  refine ih (j - 1) _ (hwt3.trans rfl) (by omega) (by omega) ?_ (by omega)
                  simp at hdur3
                  rcases hdur3 with h4 | h4 <;> rw [h4] <;> omega
            · refine ih (j - 1) _ rfl (by omega) (by omega) ?_ (by omega)
              rcases hd with hd | hd
              · exact Or.inl (by simpa using hd)
              · refine Or.inr ?_
                simp
                omega
      | meter m =>
          obtain ⟨ha, hb⟩ := nonsecond_clear_step (.meter m) s rfl j hj h3 hd
          exact ih j _ ha h1 h3 hb hc
      | start env =>
          obtain ⟨ha, hb⟩ := nonsecond_clear_step (.start env) s rfl j hj h3 hd
          exact ih j _ ha h1 h3 hb hc
      | pause ok =>
          obtain ⟨ha, hb⟩ := nonsecond_clear_step (.pause ok) s rfl j hj h3 hd
          exact ih j _ ha h1 h3 hb hc
      | resume ok =>
          obtain ⟨ha, hb⟩ := nonsecond_clear_step (.resume ok) s rfl j hj h3 hd
          exact ih j _ ha h1 h3 hb hc
      | stop ok uri =>
          obtain ⟨ha, hb⟩ := nonsecond_clear_step (.stop ok uri) s rfl j hj h3 hd
          exact ih j _ ha h1 h3 hb hc
      | togglePlay modeOk =>
          obtain ⟨ha, hb⟩ := nonsecond_clear_step (.togglePlay modeOk) s rfl j hj h3 hd
          exact ih j _ ha h1 h3 hb hc
      | close =>
          obtain ⟨ha, hb⟩ := nonsecond_clear_step .close s rfl j hj h3 hd
          exact ih j _ ha h1 h3 hb hc
      | save =>
          obtain ⟨ha, hb⟩ := nonsecond_clear_step .save s rfl j hj h3 hd
          exact ih j _ ha h1 h3 hb hc
      | again =>
          obtain ⟨ha, hb⟩ := nonsecond_clear_step .again s rfl j hj h3 hd
          exact ih j _ ha h1 h3 hb hc

/-- The warning flag is raised by a step only on the wall-clock second
whose callback moves the duration from 269 to 270, and that step also
schedules the 3-second clear. -/
theorem warn_raise_char (e : Ev) (s : RecState)
    (hpost : (stepS e s).showWarning = true) :
    s.showWarning = true ∨
    (s.duration = 269 ∧ (stepS e s).duration = 270 ∧
      (stepS e s).warningTimer = some 3) := by
  cases e with
  | second dev ok =>
      obtain ⟨hs, -⟩ := second_char dev ok s
      rw [hs] at hpost ⊢
      cases hta : timersActive s with
      | false =>
          simp only [hta] at hpost ⊢
          simp only [Bool.false_eq_true, if_false] at hpost ⊢
          exact Or.inl (wts_showWarning s hpost)
      | true =>
          simp only [hta] at hpost ⊢
          simp only [if_true] at hpost ⊢
          by_cases hd : (warningTimeoutStep s).duration = 269
          · cases hdev : dev.isRecording with
            | false =>
                rw [timerTick_mismatch dev ok _ hdev] at hpost
                exact Or.inl (wts_showWarning s hpost)
            | true =>
                rw [timerTick_fire dev ok _ hdev hd]
                have hwd := (wts_fields s).2.2.1
                exact Or.inr ⟨by omega, rfl, rfl⟩
          · obtain ⟨hsw3, -, -⟩ := timerTick_nofire dev ok _ hd
            rw [hsw3] at hpost
            exact Or.inl (wts_showWarning s hpost)
  | meter m => exact Or.inl ((nonsecond_facts (.meter m) s rfl).2.1 hpost)
  | start env => exact Or.inl ((nonsecond_facts (.start env) s rfl).2.1 hpost)
  | pause ok => exact Or.inl ((nonsecond_facts (.pause ok) s rfl).2.1 hpost)
  | resume ok => exact Or.inl ((nonsecond_facts (.resume ok) s rfl).2.1 hpost)
  | stop ok uri => exact Or.inl ((nonsecond_facts (.stop ok uri) s rfl).2.1 hpost)
  | togglePlay modeOk =>
      exact Or.inl ((nonsecond_facts (.togglePlay modeOk) s rfl).2.1 hpost)
  | close => exact Or.inl ((nonsecond_facts .close s rfl).2.1 hpost)
  | save => exact Or.inl ((nonsecond_facts .save s rfl).2.1 hpost)
  | again => exact Or.inl ((nonsecond_facts .again s rfl).2.1 hpost)

/-- C4: warningActive becomes true only on the step whose callback moves
elapsedSeconds from 269 to its first value 270, does fire exactly there,
cannot fire again within a session once the duration has passed 270, and
the scheduled clear sets it back to false once 3 wall-clock seconds have
elapsed, regardless of the events interleaved with them. -/
theorem c4_warning_one_shot :
    (∀ (e : Ev) (s : RecState), (stepS e s).showWarning = true →
      s.showWarning = true ∨
        (s.duration = 269 ∧ (stepS e s).duration = 270 ∧
          (stepS e s).warningTimer = some 3)) ∧
    (∀ (dev : DevStatus) (ok : Bool) (s : RecState), timersActive s = true →
      dev.isRecording = true → s.duration = 269 →
      (stepS (.second dev ok) s).showWarning = true ∧
      (stepS (.second dev ok) s).duration = 270 ∧
      (stepS (.second dev ok) s).warningTimer = some 3) ∧
    (∀ (e : Ev) (s : RecState), isSessionEv e = true → 270 ≤ s.duration →
      270 ≤ (stepS e s).duration ∧
      ((stepS e s).showWarning = true → s.showWarning = true)) ∧
    (∀ (es : List Ev) (s : RecState), s.warningTimer = some 3 →
      270 ≤ s.duration → countSeconds es = 3 →
      (run es s).showWarning = false) := by
  refine ⟨warn_raise_char, ?_, ?_, ?_⟩
  · intro dev ok s hta hdev hd
    obtain ⟨hs, -⟩ := second_char dev ok s
    rw [hs]
    simp only [hta, if_true]
    have hwd := (wts_fields s).2.2.1
    rw [timerTick_fire dev ok _ hdev (by omega)]
    exact ⟨rfl, rfl, rfl⟩
  · intro e s he hd
    refine ⟨le_trans hd (session_dur_mono e s he), ?_⟩
    intro hpost
    rcases warn_raise_char e s hpost with h | ⟨h1, -⟩
    · exact h
    · omega
  · intro es s hj hd hc
    exact warn_clear_aux es 3 s hj (by omega) (by omega) (Or.inl hd) hc

/-- Witness for C4 at the threshold state and across the 3-second clear. -/
theorem c4_witness :
    (stepS (.second devRec true) preWarn).showWarning = true ∧
    (stepS (.second devRec true) preWarn).duration = 270 ∧
    (stepS (.second devRec true) preWarn).warningTimer = some 3 ∧
    (run [.second devRec true, .second devRec true, .second devRec true]
      warnState).showWarning = false := by
  have h := c4_warning_one_shot
  obtain ⟨ha, hb, hc⟩ := h.2.1 devRec true preWarn (by decide) (by decide) (by decide)
  exact ⟨ha, hb, hc, h.2.2.2 _ warnState (by decide) (by decide) (by decide)⟩
